import Mathlib

/-!
Verification of the header-inference and data-quality-scan pipeline of the
Dataprep Wizard application (`src/app.py`), a Streamlit/pandas dataset
inspection tool.  The pandas `DataFrame` is embedded as a list of named,
typed columns of cell values; the library calls the source makes
(`isnull`, `duplicated`, `nunique`, `to_numeric`, `Series.map`, …) are
embedded by executable Lean functions that follow their documented
semantics on the value domain the app can produce.
-/

namespace DataprepWizard

/-- A cell value of a loaded table.  `vmissing` is the missing sentinel
(pandas `NaN`).  Floats are embedded as exact rationals. -/
inductive Value where
  | vint (n : ℤ)
  | vfloat (q : ℚ)
  | vstr (s : String)
  | vbool (b : Bool)
  | vdate (t : ℤ)
  | vmissing
  deriving DecidableEq, Repr

/-- The declared dtype of a pandas column. -/
inductive DType where
  | int64
  | float64
  | objectD
  | boolD
  | booleanD
  | datetimeD
  | categoryD
  deriving DecidableEq, Repr

/-- One column: its label, declared dtype and cell sequence. -/
structure Col where
  name : String
  dtype : DType
  cells : List Value
  deriving DecidableEq, Repr

/-- A pandas DataFrame, embedded column-major. -/
structure DataFrame where
  cols : List Col
  deriving DecidableEq, Repr

/-- Column labels, in order (`df.columns`). -/
def DataFrame.names (df : DataFrame) : List String :=
  df.cols.map (·.name)

/-- Number of columns (`df.shape[1]`). -/
def DataFrame.ncols (df : DataFrame) : ℕ :=
  df.cols.length

/-- Number of rows (`len(df)`, `df.shape[0]`). -/
def DataFrame.nrows (df : DataFrame) : ℕ :=
  match df.cols with
  | [] => 0
  | c :: _ => c.cells.length

/-- The row tuples of the table (for the row-wise pandas operations). -/
def DataFrame.rows (df : DataFrame) : List (List Value) :=
  (df.cols.map (·.cells)).transpose

/-! ### Python string primitives used by the app -/

/-- Python `str.lower()` (ASCII model, as `Char.toLower`). -/
def lowerS (l : List Char) : List Char :=
  l.map Char.toLower

/-- Test that `hay` starts with `needle` (Python `str.startswith`). -/
def startsWithL : List Char → List Char → Bool
  | _, [] => true
  | [], _ :: _ => false
  | a :: hay, b :: needle => a = b && startsWithL hay needle

/-- Test that `needle` occurs as a contiguous run inside `hay` (Python `in`). -/
def substrL (needle : List Char) : List Char → Bool
  | [] => needle.isEmpty
  | c :: rest => startsWithL (c :: rest) needle || substrL needle rest

/-- Python `str.isdigit()`: non-empty and every character a decimal digit
(ASCII model). -/
def pyIsDigit (s : String) : Bool :=
  !s.data.isEmpty && s.data.all (·.isDigit)

/-- The function `headers_suspect` (src/app.py:36-40): true iff every column label,
lowercased, starts with `"unnamed"` or is all digits. -/
def headers_suspect (df : DataFrame) : Bool :=
  df.names.all fun col =>
    startsWithL (lowerS col.data) "unnamed".data || pyIsDigit col

/-! ### Numeric parsing (`pd.to_numeric` / `float()` on strings) -/

/-- Numeric value of a digit run, most significant first. -/
def digitsVal (l : List Char) : ℕ :=
  l.foldl (fun a c => a * 10 + (c.toNat - 48)) 0

/-- Strip leading and trailing whitespace (Python `str.strip`). -/
def pyStripChars (l : List Char) : List Char :=
  ((l.dropWhile Char.isWhitespace).reverse.dropWhile Char.isWhitespace).reverse

/-- Optional leading sign; returns (isNegative, rest). -/
def parseSign : List Char → Bool × List Char
  | '-' :: r => (true, r)
  | '+' :: r => (false, r)
  | l => (false, l)

/-- Mantissa `digits[.digits]` / `.digits`; at least one digit required. -/
def parseMantissa (l : List Char) : Option (ℚ × List Char) :=
  let ip := l.takeWhile (·.isDigit)
  let r1 := l.dropWhile (·.isDigit)
  match r1 with
  | '.' :: r2 =>
    let fp := r2.takeWhile (·.isDigit)
    let r3 := r2.dropWhile (·.isDigit)
    if ip.isEmpty && fp.isEmpty then none
    else some ((digitsVal ip : ℚ) + (digitsVal fp : ℚ) / ((10 : ℚ) ^ fp.length), r3)
  | _ => if ip.isEmpty then none else some ((digitsVal ip : ℚ), r1)

/-- Optional exponent `e`/`E` sign digits; consumes nothing on `none`. -/
def parseExponent : List Char → Option (ℤ × List Char)
  | c :: r =>
    if c = 'e' || c = 'E' then
      let (neg, r1) := parseSign r
      let ds := r1.takeWhile (·.isDigit)
      let r2 := r1.dropWhile (·.isDigit)
      if ds.isEmpty then none
      else some ((if neg then -(digitsVal ds : ℤ) else (digitsVal ds : ℤ)), r2)
    else none
  | [] => none

/-- Parse a string as a number the way the numeric-conversion library call
accepts it: optional surrounding whitespace, sign, decimal mantissa,
optional exponent, nothing left over. -/
def pyParseNumeric (s : String) : Option ℚ :=
  let l := pyStripChars s.data
  let (neg, l1) := parseSign l
  match parseMantissa l1 with
  | none => none
  | some (m, r) =>
    let signed : ℚ := if neg then -m else m
    match r with
    | [] => some signed
    | _ =>
      match parseExponent r with
      | some (e, []) => some (signed * (10 : ℚ) ^ e)
      | _ => none

/-- One cell under `pd.to_numeric`: numbers and booleans pass through,
the missing sentinel stays missing, strings must parse; anything else
(and an unparsable string) is a conversion failure. -/
def toNumericCell : Value → Option Value
  | .vint n => some (.vint n)
  | .vfloat q => some (.vfloat q)
  | .vbool b => some (.vint (if b then 1 else 0))
  | .vmissing => some .vmissing
  | .vstr s => (pyParseNumeric s).map (fun q => .vfloat q)
  | .vdate _ => none

/-- All-or-nothing cell-wise conversion: `some` iff every cell
converts. -/
def mapStrict (f : Value → Option Value) : List Value → Option (List Value)
  | [] => some []
  | v :: rest => (f v).bind fun w => (mapStrict f rest).map fun ws => w :: ws

/-- Model of `pd.to_numeric(series)` with default (raising) error mode: succeeds
iff every cell converts. -/
def toNumericStrict (cells : List Value) : Option (List Value) :=
  mapStrict toNumericCell cells

/-! ### The quality scan (`check_data_quality`, src/app.py:42-105) -/

/-- One row of the quality report, with the data the `Details` string
renders carried structurally. -/
inductive Finding where
  | unnamedHeaders (cols : List String) (count : ℕ)
  | missingValues (col : String) (count : ℕ) (pct : ℚ)
  | duplicateRows (count : ℕ)
  | constantColumn (col : String)
  | mixedTypes (col : String)
  | numericObject (col : String)
  deriving DecidableEq, Repr

/-- Python `type(·)` on a cell, as seen by the mixed-type check.  The
missing sentinel `NaN` is a Python float, so its runtime type is
`float`. -/
def pyType : Value → String
  | .vint _ => "int"
  | .vfloat _ => "float"
  | .vstr _ => "str"
  | .vbool _ => "bool"
  | .vdate _ => "Timestamp"
  | .vmissing => "float"

/-- Model of `df[col].map(type).nunique()`: number of distinct runtime types in a
column (the mapped series holds type objects, none of them null). -/
def mixedKindCount (cells : List Value) : ℕ :=
  (cells.map pyType).dedup.length

/-- Model of `df.isnull().sum()` for one column. -/
def missingCount (cells : List Value) : ℕ :=
  cells.count .vmissing

/-- Model of `df.duplicated().sum()`: rows equal to some earlier row are counted,
first occurrences are not.  `seen` holds the rows already passed. -/
def dupCountAux (seen : List (List Value)) : List (List Value) → ℕ
  | [] => 0
  | r :: rest => (if r ∈ seen then 1 else 0) + dupCountAux (r :: seen) rest

/-- Model of `df.duplicated().sum()` over the whole table. -/
def duplicatedCount (df : DataFrame) : ℕ :=
  dupCountAux [] df.rows

/-- Check 1 (src/app.py:45-52): one aggregated finding naming the columns
whose label contains `"unnamed"` case-insensitively, if any. -/
def unnamedFindings (df : DataFrame) : List Finding :=
  if (df.names.filter (fun col => substrL "unnamed".data (lowerS col.data))).isEmpty then []
  else [.unnamedHeaders (df.names.filter (fun col => substrL "unnamed".data (lowerS col.data)))
    (df.names.filter (fun col => substrL "unnamed".data (lowerS col.data))).length]

/-- The finding one column contributes to the missing-value check of a
table with `N` rows, if any. -/
def missingEmit (N : ℕ) (c : Col) : Option Finding :=
  if 0 < missingCount c.cells then
    some (.missingValues c.name (missingCount c.cells)
      (((missingCount c.cells : ℚ) / (N : ℚ)) * 100))
  else none

/-- Check 2 (src/app.py:54-63): one finding per column with a positive
null count, carrying the count and `(count / len(df)) * 100`. -/
def missingFindings (df : DataFrame) : List Finding :=
  df.cols.filterMap (missingEmit df.nrows)

/-- Check 3 (src/app.py:65-72): table-level duplicate-row finding. -/
def dupFindings (df : DataFrame) : List Finding :=
  if 0 < duplicatedCount df then [.duplicateRows (duplicatedCount df)] else []

/-- Check 4 (src/app.py:74-81): `nunique(dropna=False) <= 1`. -/
def constFindings (df : DataFrame) : List Finding :=
  df.cols.filterMap fun c =>
    if c.cells.dedup.length ≤ 1 then some (.constantColumn c.name) else none

/-- Check 5 (src/app.py:83-91): more than one runtime type in a column. -/
def mixedFindings (df : DataFrame) : List Finding :=
  df.cols.filterMap fun c =>
    if 1 < mixedKindCount c.cells then some (.mixedTypes c.name) else none

/-- Check 6 (src/app.py:93-103): object-dtype columns on which
`pd.to_numeric` succeeds. -/
def numericFindings (df : DataFrame) : List Finding :=
  (df.cols.filter (fun c => c.dtype = .objectD)).filterMap fun c =>
    match toNumericStrict c.cells with
    | some _ => some (.numericObject c.name)
    | none => none

/-- The function `check_data_quality` (src/app.py:42-105): the six checks, in source
order, concatenated. -/
def check_data_quality (df : DataFrame) : List Finding :=
  unnamedFindings df ++ missingFindings df ++ dupFindings df ++
    constFindings df ++ mixedFindings df ++ numericFindings df

/-! ### Header fix (src/app.py:120-133) -/

/-- Errors the UI surfaces outside the cleaning stages. -/
inductive UiError where
  | headerCountMismatch
  deriving DecidableEq, Repr

/-- Python `str.split(",")`: split on every comma; the empty string
yields one empty token. -/
def pySplitComma : List Char → List (List Char)
  | [] => [[]]
  | c :: rest =>
    match pySplitComma rest with
    | [] => [[]]
    | t :: ts => if c = ',' then [] :: t :: ts else (c :: t) :: ts

/-- Python `input.split(",")` on strings. -/
def pySplitCommaS (s : String) : List String :=
  (pySplitComma s.data).map (fun l => ⟨l⟩)

/-- Python `str.strip()` on strings. -/
def pyStripS (s : String) : String :=
  ⟨pyStripChars s.data⟩

/-- Positional renaming `df.columns = headers` (only ever executed when
the lengths agree). -/
def setNames (df : DataFrame) (headers : List String) : DataFrame :=
  ⟨df.cols.zipWith (fun c h => { c with name := h }) headers⟩

/-- The header-input block (src/app.py:128-133): a falsy (empty) input
does nothing; otherwise the input is split on commas, tokens trimmed, and
the columns renamed when the token count matches `df.shape[1]`, the
mismatch error reported and the table left alone when it does not. -/
def applyHeaderInput (df : DataFrame) (input : String) : DataFrame × Option UiError :=
  if input = "" then (df, none)
  else
    let headers := (pySplitCommaS input).map pyStripS
    if headers.length = df.ncols then (setNames df headers, none)
    else (df, some .headerCountMismatch)

/-! ### Loading (`load_dataset`, src/app.py:20-34) -/

/-- Decimal digits, fuel-structured so it evaluates in the kernel; the
fuel never runs out when it is at least the number being printed. -/
def natReprGo : ℕ → ℕ → List Char
  | 0, _ => []
  | fuel + 1, n =>
    if n < 10 then ["0123456789".data.getD n '0']
    else natReprGo fuel (n / 10) ++ ["0123456789".data.getD (n % 10) '0']

/-- Decimal digits of a natural number, as rendered by an f-string. -/
def natRepr (n : ℕ) : List Char :=
  natReprGo (n + 1) n

/-- The synthetic label rendered by the f-string at src/app.py:122. -/
def columnLabel (i : ℕ) : String :=
  "Column_" ++ ⟨natRepr i⟩

/-- The pre-filled header-fix input `",".join(default_headers)`
(src/app.py:122-126): the synthetic names joined by commas. -/
def defaultHeaders (df : DataFrame) : List String :=
  (List.range df.ncols).map columnLabel

/-- Python join of tokens with a comma between each pair. -/
def joinComma : List (List Char) → List Char
  | [] => []
  | [t] => t
  | t :: rest => t ++ ',' :: joinComma rest

/-- Python comma-join on strings. -/
def joinCommaS (ts : List String) : String :=
  ⟨joinComma (ts.map String.data)⟩

/-- Infer one CSV/spreadsheet column from its raw text cells: all-integer
text gives `int64`, otherwise all-numeric-or-blank gives `float64`,
otherwise object dtype with blank cells missing.  (Model of the pandas
per-column type inference; the claims depend only on labels and shape.) -/
def inferColumn (raw : List String) : DType × List Value :=
  if raw.all (fun s => (pyParseNumeric s).any (fun q => q.den = 1) && !(pyStripS s).data.isEmpty) then
    (.int64, raw.map (fun s => .vint ((pyParseNumeric s).getD 0).num))
  else if raw.all (fun s => (pyParseNumeric s).isSome || (pyStripS s).data.isEmpty) then
    (.float64, raw.map (fun s =>
      match pyParseNumeric s with
      | some q => .vfloat q
      | none => .vmissing))
  else
    (.objectD, raw.map (fun s => if (pyStripS s).data.isEmpty then .vmissing else .vstr s))

/-- Assemble a DataFrame from labels and a row-major grid of raw text. -/
def mkDf (labels : List String) (body : List (List String)) : DataFrame :=
  ⟨(List.range labels.length).map fun j =>
    ⟨labels.getD j "", (inferColumn (body.map (fun r => r.getD j ""))).1,
      (inferColumn (body.map (fun r => r.getD j ""))).2⟩⟩

/-- An uploaded file, abstracted past byte-level parsing: a cell grid for
the CSV/spreadsheet formats, field names plus rows for the
record-oriented JSON format. -/
inductive UploadFile where
  | csvFile (grid : List (List String))
  | xlsxFile (grid : List (List String))
  | xlsFile (grid : List (List String))
  | jsonFile (fields : List String) (recs : List (List Value))
  | otherFile
  deriving Repr

/-- Model of `pd.read_csv(file, header=0 if has_headers else None)` (and
`pd.read_excel`, same model): with a header row the first row gives the
labels; with `header=None` pandas labels the columns with the positional
integers `0, 1, …` (stored here already stringified, as `str(col)` reads
them). -/
def readGrid (grid : List (List String)) (hasHeaders : Bool) : DataFrame :=
  if hasHeaders then mkDf (grid.headD []) grid.tail
  else mkDf ((List.range (grid.headD []).length).map (fun i => ⟨natRepr i⟩)) grid

/-- The function `load_dataset` (src/app.py:20-34): returns the table and the
needs-header-fix flag, `None` for an unsupported extension.  The JSON
branch ignores `has_headers` and never requests a fix. -/
def load_dataset : UploadFile → Bool → Option (DataFrame × Bool)
  | .csvFile grid, hasHeaders => some (readGrid grid hasHeaders, !hasHeaders)
  | .xlsxFile grid, hasHeaders => some (readGrid grid hasHeaders, !hasHeaders)
  | .xlsFile grid, hasHeaders => some (readGrid grid hasHeaders, !hasHeaders)
  | .jsonFile fields recs, _ =>
    some (⟨(List.range fields.length).map fun j =>
      ⟨fields.getD j "", .objectD, recs.map (fun r => r.getD j .vmissing)⟩⟩, false)
  | .otherFile, _ => none

/-! ### Cleaning pipeline (tab 5, src/app.py:231-356) -/

/-- Errors surfaced by cleaning sub-steps; each is local to one column. -/
inductive CleanError where
  | invalidFillValue (col : String)
  | typeConversionError (col : String) (target : String)
  deriving DecidableEq, Repr

/-- The user's choice for the missing-value stage. -/
inductive MissingAction where
  | doNothing
  | dropRows
  | fillMean
  | fillMedian
  | fillMode
  | fillManual (text : String)
  deriving DecidableEq, Repr

/-- Target dtypes of the explicit-retype stage's selectbox. -/
inductive RetypeTarget where
  | toInt
  | toFloat
  | toString
  | toBoolean
  | toDatetime
  | toCategory
  deriving DecidableEq, Repr

/-- The full set of cleaning choices read from the tab-5 widgets. -/
structure CleaningChoices where
  missing : Option (String × MissingAction)
  dropDup : Option (List String)
  dropConst : Option (List String)
  convertNumeric : Option (List String)
  retype : List (String × RetypeTarget)
  deriving Repr

/-- Model of `pd.api.types.is_numeric_dtype`. -/
def DType.isNumeric : DType → Bool
  | .int64 | .float64 | .boolD | .booleanD => true
  | _ => false

/-- Numeric reading of a cell of a numeric-dtype column. -/
def numVal : Value → Option ℚ
  | .vint n => some (n : ℚ)
  | .vfloat q => some q
  | .vbool b => some (if b then 1 else 0)
  | _ => none

/-- Column mean over the non-missing cells (`Series.mean()`);
`none` models the `NaN` mean of an all-missing column. -/
def colMean (cells : List Value) : Option ℚ :=
  let xs := cells.filterMap numVal
  if xs.isEmpty then none else some (xs.sum / (xs.length : ℚ))

/-- Insertion into a sorted list of rationals. -/
def insertQ (x : ℚ) : List ℚ → List ℚ
  | [] => [x]
  | y :: r => if x ≤ y then x :: y :: r else y :: insertQ x r

/-- Insertion sort, for the median. -/
def sortQ (l : List ℚ) : List ℚ :=
  l.foldr insertQ []

/-- Column median over the non-missing cells (`Series.median()`). -/
def colMedian (cells : List Value) : Option ℚ :=
  let s := sortQ (cells.filterMap numVal)
  let n := s.length
  if n = 0 then none
  else if n % 2 = 1 then some (s.getD (n / 2) 0)
  else some ((s.getD (n / 2 - 1) 0 + s.getD (n / 2) 0) / 2)

/-- First value of maximal multiplicity among `cand`, ties to the earlier
candidate (`Series.mode()[0]`, with the pandas value ordering modelled by
first occurrence). -/
def argmaxCount (xs : List Value) : List Value → Option Value
  | [] => none
  | v :: rest =>
    match argmaxCount xs rest with
    | none => some v
    | some w => some (if xs.count v < xs.count w then w else v)

/-- Model of `Series.mode()[0]` over the non-missing cells. -/
def colMode (cells : List Value) : Option Value :=
  let xs := cells.filter (fun v => v ≠ .vmissing)
  argmaxCount xs xs.dedup

/-- Model of `fillna(x)`: replace missing cells by `x`. -/
def fillna (x : Value) (cells : List Value) : List Value :=
  cells.map (fun v => if v = .vmissing then x else v)

/-- Rewrite the cells (and possibly dtype) of the column named `nm`
(the assignment `df_clean[col] = ...`). -/
def mapColumn (df : DataFrame) (nm : String) (f : Col → Col) : DataFrame :=
  ⟨df.cols.map (fun c => if c.name = nm then f c else c)⟩

/-- The column named `nm`, if present. -/
def findColumn (df : DataFrame) (nm : String) : Option Col :=
  df.cols.find? (·.name = nm)

/-- Keep the rows whose flag is `true`, in every column. -/
def keepRows (df : DataFrame) (keep : List Bool) : DataFrame :=
  ⟨df.cols.map fun c =>
    { c with cells := List.filterMap (fun p => if p.2 then some p.1 else none) (c.cells.zip keep) }⟩

/-- Model of `df.dropna(subset=[nm])`: keep the rows where column `nm` is not
missing. -/
def dropnaSubset (df : DataFrame) (nm : String) : DataFrame :=
  match findColumn df nm with
  | none => df
  | some c => keepRows df (c.cells.map (fun v => v ≠ .vmissing))

/-- Stage 1 (src/app.py:236-264): the missing-value action for the one
selected column.  Mean/median fills are guarded by `is_numeric_dtype`;
an unparsable manual fill on a numeric column reports `InvalidFillValue`
and changes nothing. -/
def stageMissing (choice : Option (String × MissingAction)) (df : DataFrame) :
    DataFrame × List CleanError :=
  match choice with
  | none => (df, [])
  | some (nm, act) =>
    match act with
    | .doNothing => (df, [])
    | .dropRows => (dropnaSubset df nm, [])
    | .fillMean =>
      match findColumn df nm with
      | some c =>
        if c.dtype.isNumeric then
          match colMean c.cells with
          | some m => (mapColumn df nm (fun c => { c with cells := fillna (.vfloat m) c.cells }), [])
          | none => (df, [])
        else (df, [])
      | none => (df, [])
    | .fillMedian =>
      match findColumn df nm with
      | some c =>
        if c.dtype.isNumeric then
          match colMedian c.cells with
          | some m => (mapColumn df nm (fun c => { c with cells := fillna (.vfloat m) c.cells }), [])
          | none => (df, [])
        else (df, [])
      | none => (df, [])
    | .fillMode =>
      match findColumn df nm with
      | some c =>
        match colMode c.cells with
        | some m => (mapColumn df nm (fun c => { c with cells := fillna m c.cells }), [])
        | none => (df, [])
      | none => (df, [])
    | .fillManual text =>
      if text = "" then (df, [])
      else
        match findColumn df nm with
        | some c =>
          if c.dtype.isNumeric then
            match pyParseNumeric text with
            | some q => (mapColumn df nm (fun c => { c with cells := fillna (.vfloat q) c.cells }), [])
            | none => (df, [.invalidFillValue nm])
          else (mapColumn df nm (fun c => { c with cells := fillna (.vstr text) c.cells }), [])
        | none => (df, [])

/-- Key tuple of a row under a duplicate subset (all columns when the
subset is empty, src/app.py:277-280). -/
def rowKey (df : DataFrame) (subset : List String) (r : List Value) : List Value :=
  if subset.isEmpty then r
  else (subset.filterMap (fun nm => df.names.findIdx? (· = nm))).map (fun j => r.getD j .vmissing)

/-- Keep-first mask over the key tuples. -/
def dupMask (seen : List (List Value)) : List (List Value) → List Bool
  | [] => []
  | k :: rest => (k ∉ seen : Bool) :: dupMask (k :: seen) rest

/-- Stage 2 (src/app.py:268-282): `drop_duplicates(subset=...)`. -/
def stageDedup (choice : Option (List String)) (df : DataFrame) : DataFrame :=
  match choice with
  | none => df
  | some subset =>
    if 0 < duplicatedCount df then
      keepRows df (dupMask [] (df.rows.map (rowKey df subset)))
    else df

/-- Stage 3 (src/app.py:284-297): drop the selected constant columns
(the multiselect only offers detected constant columns). -/
def stageDropConst (choice : Option (List String)) (df : DataFrame) : DataFrame :=
  match choice with
  | none => df
  | some sel =>
    let constant := df.cols.filter (fun c => c.cells.dedup.length ≤ 1) |>.map (·.name)
    ⟨df.cols.filter (fun c => !(sel.contains c.name && constant.contains c.name))⟩

/-- Model of `pd.to_numeric(col, errors='coerce')`: unconvertible cells become
missing. -/
def coerceNumericCell (v : Value) : Value :=
  (toNumericCell v).getD .vmissing

/-- Stage 4 (src/app.py:299-327): convert the selected object columns
with coercing numeric conversion. -/
def stageConvertNumeric (choice : Option (List String)) (df : DataFrame) : DataFrame :=
  match choice with
  | none => df
  | some sel =>
    ⟨df.cols.map fun c =>
      if sel.contains c.name && c.dtype = .objectD then
        { c with dtype := .float64, cells := c.cells.map coerceNumericCell }
      else c⟩

/-- Python `str(value)`, as `astype(str)` applies it cell-wise.  The
missing sentinel renders as the string `"nan"`; floats are rendered from
the exact rational. -/
def pyStr : Value → String
  | .vint n => toString n
  | .vfloat q => toString q
  | .vstr s => s
  | .vbool b => if b then "True" else "False"
  | .vdate t => toString t
  | .vmissing => "nan"

/-- The dict literal of the boolean branch (src/app.py:350) under Python
key equality: `True == 1 == 1.0` and `False == 0 == 0.0` hash and compare
equal, so the tokens `'True'`/`'False'`, the booleans and the numbers
one/zero all hit a key; every other value (the missing sentinel included)
misses. -/
def boolDictLookup : Value → Option Bool
  | .vstr s => if s = "True" then some true else if s = "False" then some false else none
  | .vbool b => some b
  | .vint n => if n = 1 then some true else if n = 0 then some false else none
  | .vfloat q => if q = 1 then some true else if q = 0 then some false else none
  | _ => none

/-- Model of `Series.map(dict)`: values absent from the dict become `NaN`. -/
def mapBoolDict (cells : List Value) : List Value :=
  cells.map (fun v => match boolDictLookup v with
    | some b => .vbool b
    | none => .vmissing)

/-- Model of `astype('boolean')` on one cell: the nullable boolean dtype accepts
booleans, the missing sentinel and the numbers one/zero, rejects
anything else. -/
def astypeBooleanCell : Value → Option Value
  | .vbool b => some (.vbool b)
  | .vmissing => some .vmissing
  | .vint n => if n = 1 then some (.vbool true) else if n = 0 then some (.vbool false) else none
  | .vfloat q => if q = 1 then some (.vbool true) else if q = 0 then some (.vbool false) else none
  | _ => none

/-- Model of `astype('boolean')` on a column. -/
def astypeBoolean (cells : List Value) : Option (List Value) :=
  mapStrict astypeBooleanCell cells

/-- ISO `YYYY-MM-DD` recognizer (model of the permissive datetime parse
for the date strings the app handles). -/
def parseIsoDate (s : String) : Option ℤ :=
  match s.data with
  | [a, b, c, d, '-', e, f, '-', g, h] =>
    if ([a, b, c, d, e, f, g, h].all (·.isDigit)) then
      some ((digitsVal [a, b, c, d] : ℤ) * 10000 + (digitsVal [e, f] : ℤ) * 100 + (digitsVal [g, h] : ℤ))
    else none
  | _ => none

/-- Model of `pd.to_datetime(col, errors='coerce')`, cell-wise. -/
def coerceDatetimeCell : Value → Value
  | .vstr s => match parseIsoDate s with
    | some t => .vdate t
    | none => .vmissing
  | .vint n => .vdate n
  | .vdate t => .vdate t
  | _ => .vmissing

/-- Model of `astype('Int64')` on a coerced numeric cell: raises when the value is
fractional. -/
def astypeInt64Cell : Value → Option Value
  | .vint n => some (.vint n)
  | .vfloat q => if q.den = 1 then some (.vint q.num) else none
  | .vmissing => some .vmissing
  | _ => none

/-- One iteration of the retype loop (src/app.py:341-356) on one column:
the new cells and dtype, or a failure, in which case the `except` arm
reports `TypeConversionError` and the column keeps its old contents. -/
def retypeColumn (c : Col) (tgt : RetypeTarget) : Option Col :=
  match tgt with
  | .toInt =>
    (mapStrict astypeInt64Cell (c.cells.map coerceNumericCell)).map
      (fun cells => { c with dtype := .int64, cells := cells })
  | .toFloat =>
    some { c with dtype := .float64, cells := c.cells.map coerceNumericCell }
  | .toString =>
    some { c with dtype := .objectD, cells := c.cells.map (fun v => .vstr (pyStr v)) }
  | .toBoolean =>
    (astypeBoolean (mapBoolDict c.cells)).map
      (fun cells => { c with dtype := .booleanD, cells := cells })
  | .toDatetime =>
    some { c with dtype := .datetimeD, cells := c.cells.map coerceDatetimeCell }
  | .toCategory =>
    some { c with dtype := .categoryD }

/-- Stage 5 (src/app.py:329-356): retype each column with a selected
target; a failing column reports its error and is left unchanged, the
loop continues with the remaining columns. -/
def stageRetype (choices : List (String × RetypeTarget)) (df : DataFrame) :
    DataFrame × List CleanError :=
  choices.foldl (fun (acc : DataFrame × List CleanError) ch =>
    let (d, errs) := acc
    match findColumn d ch.1 with
    | none => (d, errs)
    | some c =>
      match retypeColumn c ch.2 with
      | some c2 => (mapColumn d ch.1 (fun _ => c2), errs)
      | none => (d, errs ++ [.typeConversionError ch.1 (reprStr ch.2)]))
    (df, [])

/-! ### The session heap: `df`, `df.copy()` and mutation -/

/-- The live DataFrames of a session, addressed by allocation index.
Assignments like `df_clean[col] = ...` mutate the table a name points
to, so whether the original survives depends on `df_clean` being a copy
rather than an alias — which is what this store makes expressible. -/
structure PdState where
  heap : List DataFrame
  deriving Repr

/-- Read a reference. -/
def readRef (st : PdState) (r : ℕ) : DataFrame :=
  st.heap.getD r ⟨[]⟩

/-- Overwrite the table a reference points to. -/
def writeRef (st : PdState) (r : ℕ) (t : DataFrame) : PdState :=
  ⟨st.heap.set r t⟩

/-- Model of `df.copy()`: allocate a fresh table equal to the given one. -/
def allocRef (st : PdState) (t : DataFrame) : PdState × ℕ :=
  (⟨st.heap ++ [t]⟩, st.heap.length)

/-- The whole Clean & Export tab (src/app.py:231-356): copy the loaded
table, then run the five stages in source order against the copy,
collecting the column-local errors.  Returns the state, the reference to
the cleaned table, and the errors. -/
def runCleanTab (st : PdState) (dfRef : ℕ) (ch : CleaningChoices) :
    PdState × ℕ × List CleanError :=
  let st1 := (allocRef st (readRef st dfRef)).1
  let cleanRef := (allocRef st (readRef st dfRef)).2
  let st2 := writeRef st1 cleanRef (stageMissing ch.missing (readRef st1 cleanRef)).1
  let st3 := writeRef st2 cleanRef (stageDedup ch.dropDup (readRef st2 cleanRef))
  let st4 := writeRef st3 cleanRef (stageDropConst ch.dropConst (readRef st3 cleanRef))
  let st5 := writeRef st4 cleanRef (stageConvertNumeric ch.convertNumeric (readRef st4 cleanRef))
  let st6 := writeRef st5 cleanRef (stageRetype ch.retype (readRef st5 cleanRef)).1
  (st6, cleanRef,
    (stageMissing ch.missing (readRef st1 cleanRef)).2 ++
      (stageRetype ch.retype (readRef st5 cleanRef)).2)

/-! ## Spec-side definitions

These follow the specification's and the claims' wording, for comparison
with the code-side definitions above. -/

/-- A column label the spec calls acceptable to the suspect check
(spec §4.2): case-insensitively it starts with the literal `"unnamed"`,
or it consists entirely of decimal digits. -/
def SuspectName (nm : String) : Prop :=
  (lowerS nm.data).take 7 = "unnamed".data ∨
    (nm.data ≠ [] ∧ ∀ c ∈ nm.data, c.isDigit)

instance (nm : String) : Decidable (SuspectName nm) := by
  unfold SuspectName; infer_instance

/-- The value-kind classification the claim about the mixed-type check
describes: the missing sentinel is its own kind, distinct from the kind
of every non-missing cell. -/
def specValueKind : Value → String
  | .vint _ => "int"
  | .vfloat _ => "float"
  | .vstr _ => "str"
  | .vbool _ => "bool"
  | .vdate _ => "Timestamp"
  | .vmissing => "missing"

/-- Kind count under the claim's classification. -/
def specKindCount (cells : List Value) : ℕ :=
  (cells.map specValueKind).dedup.length

/-- The cell mapping of the boolean retype as it actually behaves: the
two literal tokens, native booleans and the numbers one/zero map to
booleans, everything else (missing sentinel included) to missing. -/
def specBoolCell : Value → Value
  | .vstr s => if s = "True" then .vbool true else if s = "False" then .vbool false else .vmissing
  | .vbool b => .vbool b
  | .vint n => if n = 1 then .vbool true else if n = 0 then .vbool false else .vmissing
  | .vfloat q => if q = 1 then .vbool true else if q = 0 then .vbool false else .vmissing
  | _ => .vmissing

/-! ## Helper lemmas -/

theorem startsWithL_iff (needle hay : List Char) :
    startsWithL hay needle = true ↔ hay.take needle.length = needle := by
  induction needle generalizing hay with
  | nil => simp [startsWithL]
  | cons b bs ih =>
    cases hay with
    | nil => simp [startsWithL]
    | cons a hs => simp [startsWithL, ih]

theorem pyIsDigit_iff (nm : String) :
    pyIsDigit nm = true ↔ nm.data ≠ [] ∧ ∀ c ∈ nm.data, c.isDigit := by
  simp [pyIsDigit, List.isEmpty_iff, List.all_eq_true]

/-! ## C1: the suspect-header predicate -/

/-- C1.  `headers_suspect` returns true iff every column label,
case-insensitively, starts with the literal `"unnamed"` or consists
entirely of decimal digits; consequently it returns false as soon as one
label is neither. -/
theorem headers_suspect_iff (df : DataFrame) :
    headers_suspect df = true ↔ ∀ nm ∈ df.names, SuspectName nm := by
  unfold headers_suspect SuspectName
  rw [List.all_eq_true]
  refine forall_congr' fun nm => forall_congr' fun _ => ?_
  rw [Bool.or_eq_true, startsWithL_iff, pyIsDigit_iff]
  have hlen : ("unnamed".data : List Char).length = 7 := by decide
  rw [← hlen]

/-- Witness for C1: a table with one digit label and one unnamed label
is suspect; adding a real label makes it not suspect. -/
theorem headers_suspect_iff_witness :
    headers_suspect ⟨[⟨"0", .objectD, []⟩, ⟨"Unnamed: 1", .objectD, []⟩]⟩ = true ∧
    headers_suspect ⟨[⟨"0", .objectD, []⟩, ⟨"name", .objectD, []⟩]⟩ ≠ true := by
  constructor
  · exact (headers_suspect_iff _).mpr (by decide)
  · intro h
    have := (headers_suspect_iff _).mp h "name" (by decide)
    revert this
    decide

/-! ## Shape of the six quality checks -/

/-- Recognizer for a missing-values finding about column `nm`. -/
def isMissingFor (nm : String) : Finding → Bool
  | .missingValues nm2 _ _ => nm2 = nm
  | _ => false

/-- Recognizer for the table-level duplicate-rows finding. -/
def isDupFinding : Finding → Bool
  | .duplicateRows _ => true
  | _ => false

theorem shape_unnamedFindings {df : DataFrame} {f : Finding}
    (h : f ∈ unnamedFindings df) : ∃ a b, f = Finding.unnamedHeaders a b := by
  unfold unnamedFindings at h
  split at h
  · cases h
  · rw [List.mem_singleton] at h
    exact ⟨_, _, h⟩

theorem shape_missingFindings {df : DataFrame} {f : Finding}
    (h : f ∈ missingFindings df) : ∃ nm c p, f = Finding.missingValues nm c p := by
  unfold missingFindings missingEmit at h
  rw [List.mem_filterMap] at h
  obtain ⟨c, -, hc⟩ := h
  split at hc
  · exact ⟨_, _, _, (Option.some.inj hc).symm⟩
  · cases hc

theorem shape_dupFindings {df : DataFrame} {f : Finding}
    (h : f ∈ dupFindings df) : ∃ n, f = Finding.duplicateRows n := by
  unfold dupFindings at h
  split at h
  · rw [List.mem_singleton] at h
    exact ⟨_, h⟩
  · cases h

theorem shape_constFindings {df : DataFrame} {f : Finding}
    (h : f ∈ constFindings df) : ∃ nm, f = Finding.constantColumn nm := by
  unfold constFindings at h
  rw [List.mem_filterMap] at h
  obtain ⟨c, -, hc⟩ := h
  split at hc
  · exact ⟨_, (Option.some.inj hc).symm⟩
  · cases hc

theorem shape_mixedFindings {df : DataFrame} {f : Finding}
    (h : f ∈ mixedFindings df) : ∃ nm, f = Finding.mixedTypes nm := by
  unfold mixedFindings at h
  rw [List.mem_filterMap] at h
  obtain ⟨c, -, hc⟩ := h
  split at hc
  · exact ⟨_, (Option.some.inj hc).symm⟩
  · cases hc

theorem shape_numericFindings {df : DataFrame} {f : Finding}
    (h : f ∈ numericFindings df) : ∃ nm, f = Finding.numericObject nm := by
  unfold numericFindings at h
  rw [List.mem_filterMap] at h
  obtain ⟨c, -, hc⟩ := h
  split at hc
  · exact ⟨_, (Option.some.inj hc).symm⟩
  · cases hc

/-! ## C10: the zero-column table -/

/-- C10.  On a table with no columns the all-columns quantification is
vacuous, so `headers_suspect` returns true. -/
theorem headers_suspect_empty : headers_suspect ⟨[]⟩ = true := by decide

/-! ## C2: the header-fix contract -/

theorem zipWith_rename_names (cols : List Col) (hs : List String)
    (h : hs.length = cols.length) :
    (cols.zipWith (fun c n => { c with name := n }) hs).map Col.name = hs := by
  induction cols generalizing hs with
  | nil => cases hs <;> simp_all
  | cons c cs ih =>
    cases hs with
    | nil => simp at h
    | cons x xs =>
      simp only [List.zipWith_cons_cons, List.map_cons, List.cons.injEq, true_and]
      exact ih xs (by simpa using h)

theorem setNames_names (df : DataFrame) (hs : List String)
    (h : hs.length = df.ncols) : (setNames df hs).names = hs := by
  unfold setNames DataFrame.names
  exact zipWith_rename_names df.cols hs h

/-- Counterexample for C2.  The block is guarded by Python truthiness of
the input, so the empty replacement string is ignored outright: on a
one-column table its single (empty) token count matches the column count
yet no renaming happens, and on a three-column table the count mismatch
is not reported. -/
theorem headerInput_empty_cex :
    (((pySplitCommaS "").map pyStripS).length = 1 ∧
      applyHeaderInput ⟨[⟨"a", .objectD, []⟩]⟩ "" = (⟨[⟨"a", .objectD, []⟩]⟩, none) ∧
      (applyHeaderInput ⟨[⟨"a", .objectD, []⟩]⟩ "").1.names ≠ [""]) ∧
    (((pySplitCommaS "").map pyStripS).length ≠ 3 ∧
      (applyHeaderInput ⟨[⟨"a", .objectD, []⟩, ⟨"b", .objectD, []⟩, ⟨"c", .objectD, []⟩]⟩ "").2
        = none) := by
  decide

/-- C2 (amended).  For every non-empty replacement string: the columns
are renamed to the trimmed comma-separated tokens iff the token count
equals the column count, and otherwise `HeaderCountMismatch` is reported
with every column name left unchanged.  (The empty string is ignored
entirely: no rename and no report.) -/
theorem headerInput_contract (df : DataFrame) (input : String) (h : input ≠ "") :
    (((pySplitCommaS input).map pyStripS).length = df.ncols →
      applyHeaderInput df input = (setNames df ((pySplitCommaS input).map pyStripS), none) ∧
      (applyHeaderInput df input).1.names = (pySplitCommaS input).map pyStripS) ∧
    (((pySplitCommaS input).map pyStripS).length ≠ df.ncols →
      applyHeaderInput df input = (df, some .headerCountMismatch)) := by
  unfold applyHeaderInput
  simp only [h, if_false]
  constructor
  · intro hl
    rw [if_pos hl]
    exact ⟨rfl, setNames_names df _ hl⟩
  · intro hl
    rw [if_neg hl]

/-- Witness for C2: `"x,y"` against a three-column table reports the
mismatch and leaves the table unchanged. -/
theorem headerInput_contract_witness :
    applyHeaderInput ⟨[⟨"a", .objectD, []⟩, ⟨"b", .objectD, []⟩, ⟨"c", .objectD, []⟩]⟩ "x,y" =
      (⟨[⟨"a", .objectD, []⟩, ⟨"b", .objectD, []⟩, ⟨"c", .objectD, []⟩]⟩,
        some .headerCountMismatch) :=
  (headerInput_contract _ "x,y" (by decide)).2 (by decide)

/-! ## C3: the missing-value check -/

theorem missingFindings_filter (N : ℕ) (cols : List Col) (c : Col)
    (hc : c ∈ cols) (hnd : (cols.map Col.name).Nodup) :
    (cols.filterMap (missingEmit N)).filter (isMissingFor c.name) =
      if 0 < missingCount c.cells then
        [Finding.missingValues c.name (missingCount c.cells)
          (((missingCount c.cells : ℚ) / (N : ℚ)) * 100)]
      else [] := by
  induction cols with
  | nil => cases hc
  | cons d rest ih =>
    rw [List.map_cons, List.nodup_cons] at hnd
    obtain ⟨hd, hrest⟩ := hnd
    rcases List.mem_cons.mp hc with rfl | hcr
    · have htail : (rest.filterMap (missingEmit N)).filter (isMissingFor c.name) = [] := by
        rw [List.filter_eq_nil_iff]
        intro f hf
        rw [List.mem_filterMap] at hf
        obtain ⟨c2, hc2, he⟩ := hf
        unfold missingEmit at he
        split at he
        · rw [← Option.some.inj he]
          simp only [isMissingFor, Bool.not_eq_true, decide_eq_false_iff_not]
          intro hname
          exact hd (hname ▸ List.mem_map_of_mem Col.name hc2)
        · cases he
      by_cases h0 : 0 < missingCount c.cells
      · rw [List.filterMap_cons_some (show missingEmit N c = _ from if_pos h0),
          List.filter_cons, if_pos (by simp [isMissingFor]), htail, if_pos h0]
      · rw [List.filterMap_cons_none (show missingEmit N c = none from if_neg h0),
          if_neg h0]
        exact htail
    · have hdc : d.name ≠ c.name := by
        intro hname
        exact hd (hname ▸ List.mem_map_of_mem Col.name hcr)
      have hmain := ih hcr hrest
      by_cases hd0 : 0 < missingCount d.cells
      · rw [List.filterMap_cons_some (show missingEmit N d = _ from if_pos hd0),
          List.filter_cons, if_neg (by simp [isMissingFor, hdc])]
        exact hmain
      · rw [List.filterMap_cons_none (show missingEmit N d = none from if_neg hd0)]
        exact hmain

/-- C3.  In the quality scan, a column with a positive missing-cell
count contributes exactly one missing-values finding, whose count is the
column's null count and whose percentage is `100 * count / N` (the value
the report renders to two decimals); a column with no missing cells
contributes no missing-values finding. -/
theorem missing_check (df : DataFrame) (hnd : df.names.Nodup) (c : Col)
    (hc : c ∈ df.cols) :
    (check_data_quality df).filter (isMissingFor c.name) =
      if 0 < missingCount c.cells then
        [Finding.missingValues c.name (missingCount c.cells)
          (100 * (missingCount c.cells : ℚ) / (df.nrows : ℚ))]
      else [] := by
  have hnil : ∀ (l : List Finding),
      (∀ f ∈ l, (∃ a b, f = Finding.unnamedHeaders a b) ∨ (∃ n, f = Finding.duplicateRows n) ∨
        (∃ nm, f = Finding.constantColumn nm) ∨ (∃ nm, f = Finding.mixedTypes nm) ∨
        (∃ nm, f = Finding.numericObject nm)) →
      l.filter (isMissingFor c.name) = [] := by
    intro l hl
    rw [List.filter_eq_nil_iff]
    intro f hf
    rcases hl f hf with ⟨a, b, rfl⟩ | ⟨n, rfl⟩ | ⟨nm, rfl⟩ | ⟨nm, rfl⟩ | ⟨nm, rfl⟩ <;>
      simp [isMissingFor]
  unfold check_data_quality
  rw [List.filter_append, List.filter_append, List.filter_append, List.filter_append,
    List.filter_append]
  rw [hnil _ (fun f hf => Or.inl (shape_unnamedFindings hf)),
    hnil _ (fun f hf => Or.inr (Or.inl (shape_dupFindings hf))),
    hnil _ (fun f hf => Or.inr (Or.inr (Or.inl (shape_constFindings hf)))),
    hnil _ (fun f hf => Or.inr (Or.inr (Or.inr (Or.inl (shape_mixedFindings hf))))),
    hnil _ (fun f hf => Or.inr (Or.inr (Or.inr (Or.inr (shape_numericFindings hf)))))]
  simp only [List.nil_append, List.append_nil]
  have harith : ((missingCount c.cells : ℚ) / (df.nrows : ℚ)) * 100 =
      100 * (missingCount c.cells : ℚ) / (df.nrows : ℚ) := by ring
  have := missingFindings_filter df.nrows df.cols c hc hnd
  rw [harith] at this
  exact this

/-- The spec's worked table: `[[1,"a"],[1,"a"],[2,None]]` with columns
`n`, `s`. -/
def dfScenario : DataFrame :=
  ⟨[⟨"n", .int64, [.vint 1, .vint 1, .vint 2]⟩,
    ⟨"s", .objectD, [.vstr "a", .vstr "a", .vmissing]⟩]⟩

/-- Witness for C3: in the scenario table, column `s` yields exactly the
one finding `1 missing (33.33%)`, i.e. percentage `100 * 1 / 3`. -/
theorem missing_check_witness :
    (check_data_quality dfScenario).filter (isMissingFor "s") =
      [Finding.missingValues "s" 1 (100 * 1 / 3 : ℚ)] := by
  have h := missing_check dfScenario (by decide)
    ⟨"s", .objectD, [.vstr "a", .vstr "a", .vmissing]⟩ (by decide)
  simpa [dfScenario, DataFrame.nrows, missingCount] using h

/-! ## C4: the duplicate-row check -/

theorem dupCountAux_eq (l seen : List (List Value)) :
    dupCountAux seen l =
      ((List.range l.length).filter
        (fun i => decide (l.getD i [] ∈ seen ++ l.take i))).length := by
  induction l generalizing seen with
  | nil => simp [dupCountAux]
  | cons r rest ih =>
    rw [dupCountAux, List.length_cons, List.range_succ_eq_map, List.filter_cons]
    have hcong : ((List.range rest.length).filter
        ((fun i => decide ((r :: rest).getD i [] ∈ seen ++ (r :: rest).take i)) ∘ Nat.succ)) =
        ((List.range rest.length).filter
          (fun i => decide (rest.getD i [] ∈ (r :: seen) ++ rest.take i))) := by
      apply List.filter_congr
      intro i _
      simp only [Function.comp_apply, List.getD_cons_succ, List.take_succ_cons,
        decide_eq_decide, List.mem_append, List.mem_cons]
      tauto
    have hhead : decide ((r :: rest).getD 0 [] ∈ seen ++ (r :: rest).take 0) =
        decide (r ∈ seen) := by simp
    rw [hhead]
    by_cases hr : r ∈ seen
    · rw [if_pos (decide_eq_true hr), if_pos hr, List.length_cons, List.filter_map,
        List.length_map, hcong, ← ih (r :: seen)]
      omega
    · rw [if_neg hr, if_neg (show ¬(decide (r ∈ seen) = true) by simp [hr]),
        List.filter_map, List.length_map, hcong, ← ih (r :: seen)]
      omega

/-- C4.  `duplicatedCount` equals the number of row indices whose row
tuple already appears among the earlier rows (first occurrences never
counted), and the quality scan carries a duplicate-rows finding with
exactly that count iff the count is positive. -/
theorem dup_check (df : DataFrame) :
    duplicatedCount df =
      ((List.range df.rows.length).filter
        (fun i => decide (df.rows.getD i [] ∈ df.rows.take i))).length ∧
    (check_data_quality df).filter isDupFinding =
      (if 0 < duplicatedCount df then [Finding.duplicateRows (duplicatedCount df)]
       else []) := by
  constructor
  · have h := dupCountAux_eq df.rows []
    simpa [duplicatedCount] using h
  · have hnil : ∀ (l : List Finding),
        (∀ f ∈ l, (∃ a b, f = Finding.unnamedHeaders a b) ∨
          (∃ nm c p, f = Finding.missingValues nm c p) ∨
          (∃ nm, f = Finding.constantColumn nm) ∨ (∃ nm, f = Finding.mixedTypes nm) ∨
          (∃ nm, f = Finding.numericObject nm)) →
        l.filter isDupFinding = [] := by
      intro l hl
      rw [List.filter_eq_nil_iff]
      intro f hf
      rcases hl f hf with ⟨a, b, rfl⟩ | ⟨nm, c, p, rfl⟩ | ⟨nm, rfl⟩ | ⟨nm, rfl⟩ | ⟨nm, rfl⟩ <;>
        simp [isDupFinding]
    unfold check_data_quality
    rw [List.filter_append, List.filter_append, List.filter_append, List.filter_append,
      List.filter_append]
    rw [hnil _ (fun f hf => Or.inl (shape_unnamedFindings hf)),
      hnil _ (fun f hf => Or.inr (Or.inl (shape_missingFindings hf))),
      hnil _ (fun f hf => Or.inr (Or.inr (Or.inl (shape_constFindings hf)))),
      hnil _ (fun f hf => Or.inr (Or.inr (Or.inr (Or.inl (shape_mixedFindings hf))))),
      hnil _ (fun f hf => Or.inr (Or.inr (Or.inr (Or.inr (shape_numericFindings hf)))))]
    simp only [List.nil_append, List.append_nil]
    unfold dupFindings
    split
    · rw [List.filter_cons, if_pos (by simp [isDupFinding]), List.filter_nil]
    · rfl

/-! ## C5: the missing sentinel in the mixed-type check -/

/-- Counterexample for C5.  `NaN` is a Python float, so the missing
sentinel's runtime kind coincides with the kind of non-missing float
cells: a float column with one real value and one missing cell has
kind-count 1 and is not flagged, whereas counting the sentinel as its
own distinct kind (as the claim states) would give kind-count 2 and flag
it. -/
theorem mixed_missing_cex :
    pyType Value.vmissing = pyType (Value.vfloat 1) ∧
    mixedKindCount [Value.vfloat 1, Value.vmissing] = 1 ∧
    specKindCount [Value.vfloat 1, Value.vmissing] = 2 ∧
    Finding.mixedTypes "x" ∉
      check_data_quality ⟨[⟨"x", .float64, [.vfloat 1, .vmissing]⟩]⟩ := by
  decide

/-- C5 (amended).  In the mixed-type check the missing sentinel carries
the runtime kind `float`: distinct from the int/str/bool kinds but equal
to the kind of non-missing float cells.  An all-missing column has
kind-count at most one and is never flagged. -/
theorem mixed_missing_kind (cells : List Value)
    (h : ∀ v ∈ cells, v = Value.vmissing) :
    ¬ 1 < mixedKindCount cells ∧
    pyType Value.vmissing = "float" ∧
    (∀ n : ℤ, pyType (Value.vint n) ≠ pyType Value.vmissing) ∧
    (∀ s : String, pyType (Value.vstr s) ≠ pyType Value.vmissing) ∧
    (∀ b : Bool, pyType (Value.vbool b) ≠ pyType Value.vmissing) ∧
    (∀ q : ℚ, pyType (Value.vfloat q) = pyType Value.vmissing) := by
  refine ⟨?_, rfl, fun n => by simp [pyType], fun s => by simp [pyType],
    fun b => by simp [pyType], fun q => rfl⟩
  have hmap : cells.map pyType = List.replicate cells.length "float" := by
    induction cells with
    | nil => simp
    | cons v rest ih =>
      rw [List.map_cons, h v (List.mem_cons_self v rest), List.length_cons,
        List.replicate_succ, ih (fun w hw => h w (List.mem_cons_of_mem v hw))]
      rfl
  have hded : ∀ n : ℕ, (List.replicate n ("float" : String)).dedup.length ≤ 1 := by
    intro n
    induction n with
    | zero => simp
    | succ k ihk =>
      cases k with
      | zero => simp
      | succ m =>
        rw [List.replicate_succ, List.dedup_cons_of_mem (by simp [List.mem_replicate])]
        rw [List.replicate_succ] at ihk
        simpa using ihk
  unfold mixedKindCount
  rw [hmap]
  have := hded cells.length
  omega

/-- Witness for C5: the one-cell all-missing column has a single kind,
and that kind is the float kind. -/
theorem mixed_missing_kind_witness :
    ¬ 1 < mixedKindCount [Value.vmissing] ∧
    pyType (Value.vfloat 1) = pyType Value.vmissing :=
  ⟨(mixed_missing_kind [Value.vmissing] (by decide)).1,
    (mixed_missing_kind [Value.vmissing] (by decide)).2.2.2.2.2 1⟩

/-! ## C6: the numeric-string check -/

theorem mapStrict_isSome (f : Value → Option Value) (cells : List Value) :
    (mapStrict f cells).isSome = true ↔ ∀ v ∈ cells, (f v).isSome = true := by
  induction cells with
  | nil => simp [mapStrict]
  | cons v rest ih =>
    cases hv : f v with
    | none =>
      simp only [mapStrict, hv, Option.none_bind, Option.isSome_none,
        Bool.false_eq_true, false_iff]
      intro hall
      have := hall v (List.mem_cons_self v rest)
      rw [hv] at this
      cases this
    | some w =>
      simp [mapStrict, hv, ih, List.forall_mem_cons]

theorem toNumericStrict_isSome (cells : List Value) :
    (toNumericStrict cells).isSome = true ↔
      ∀ v ∈ cells, (toNumericCell v).isSome = true :=
  mapStrict_isSome toNumericCell cells

/-- C6.  The quality scan flags a column as a numeric-valued
string/object column iff its declared dtype is object and every one of
its cells converts with no parse failure. -/
theorem numeric_check (df : DataFrame) (hnd : df.names.Nodup) (c : Col)
    (hc : c ∈ df.cols) :
    Finding.numericObject c.name ∈ check_data_quality df ↔
      c.dtype = .objectD ∧ ∀ v ∈ c.cells, (toNumericCell v).isSome = true := by
  have hmem : Finding.numericObject c.name ∈ check_data_quality df ↔
      Finding.numericObject c.name ∈ numericFindings df := by
    unfold check_data_quality
    constructor
    · intro h0
      rcases List.mem_append.mp h0 with h1 | h
      · rcases List.mem_append.mp h1 with h2 | h
        · rcases List.mem_append.mp h2 with h3 | h
          · rcases List.mem_append.mp h3 with h4 | h
            · rcases List.mem_append.mp h4 with h | h
              · obtain ⟨a, b, hh⟩ := shape_unnamedFindings h
                exact Finding.noConfusion hh
              · obtain ⟨nm, n, p, hh⟩ := shape_missingFindings h
                exact Finding.noConfusion hh
            · obtain ⟨n, hh⟩ := shape_dupFindings h
              exact Finding.noConfusion hh
          · obtain ⟨nm, hh⟩ := shape_constFindings h
            exact Finding.noConfusion hh
        · obtain ⟨nm, hh⟩ := shape_mixedFindings h
          exact Finding.noConfusion hh
      · exact h
    · intro h
      exact List.mem_append.mpr (Or.inr h)
  rw [hmem]
  unfold numericFindings
  rw [List.mem_filterMap]
  unfold DataFrame.names at hnd
  constructor
  · rintro ⟨c2, hc2, he⟩
    rw [List.mem_filter] at hc2
    obtain ⟨hc2m, hc2d⟩ := hc2
    split at he
    · rename_i l hl
      have hname : c2.name = c.name := by
        have := Option.some.inj he
        exact Finding.numericObject.inj this
      have hceq : c2 = c := List.inj_on_of_nodup_map hnd hc2m hc hname
      subst hceq
      refine ⟨by simpa using hc2d, ?_⟩
      rw [← toNumericStrict_isSome, hl]
      rfl
    · cases he
  · rintro ⟨hdt, hall⟩
    refine ⟨c, List.mem_filter.mpr ⟨hc, by simp [hdt]⟩, ?_⟩
    have : (toNumericStrict c.cells).isSome = true :=
      (toNumericStrict_isSome c.cells).mpr hall
    rw [Option.isSome_iff_exists] at this
    obtain ⟨l, hl⟩ := this
    rw [hl]

/-- The numeric-string scenario table: an object column of numeric
strings and an object column with one non-numeric string. -/
def dfNum : DataFrame :=
  ⟨[⟨"a", .objectD, [.vstr "1", .vstr "2", .vstr "3"]⟩,
    ⟨"b", .objectD, [.vstr "1", .vstr "a", .vstr "3"]⟩]⟩

/-- Witness for C6: `["1","2","3"]` is flagged, `["1","a","3"]` is
not. -/
theorem numeric_check_witness :
    Finding.numericObject "a" ∈ check_data_quality dfNum ∧
    Finding.numericObject "b" ∉ check_data_quality dfNum := by
  constructor
  · exact (numeric_check dfNum (by decide)
      ⟨"a", .objectD, [.vstr "1", .vstr "2", .vstr "3"]⟩ (by decide)).mpr
      ⟨rfl, by decide⟩
  · intro h
    have hin := (numeric_check dfNum (by decide)
      ⟨"b", .objectD, [.vstr "1", .vstr "a", .vstr "3"]⟩ (by decide)).mp h
    exact absurd (hin.2 (Value.vstr "a") (by decide)) (by decide)

/-! ## C7: column names at load time -/

theorem map_getD_range {α : Type} (l : List α) (d : α) :
    (List.range l.length).map (fun j => l.getD j d) = l := by
  induction l with
  | nil => simp
  | cons x xs ih =>
    rw [List.length_cons, List.range_succ_eq_map, List.map_cons, List.getD_cons_zero,
      List.map_map]
    have hcomp : ((fun j => (x :: xs).getD j d) ∘ Nat.succ) = (fun j => xs.getD j d) := by
      funext j
      simp [List.getD_cons_succ]
    rw [hcomp, ih]

theorem mkDf_names (labels : List String) (body : List (List String)) :
    (mkDf labels body).names = labels := by
  unfold mkDf DataFrame.names
  rw [List.map_map]
  exact map_getD_range labels ""

/-- Counterexample for C7.  Loading a two-column CSV grid with
`has_header = false` labels the columns with the positional integers
`0`, `1` (pandas' `header=None` labelling) and flags the table for a
header fix; the labels are not the synthetic `Column_0`, `Column_1`. -/
theorem load_noheader_cex :
    (load_dataset (.csvFile [["1", "2"], ["3", "4"]]) false).map
        (fun p => (p.1.names, p.2)) = some (["0", "1"], true) ∧
    (["0", "1"] : List String) ≠ [columnLabel 0, columnLabel 1] := by
  decide

theorem pySplitComma_ne_nil (l : List Char) : pySplitComma l ≠ [] := by
  cases l with
  | nil => simp [pySplitComma]
  | cons c rest =>
    rw [pySplitComma]
    split
    · simp
    · split <;> simp

theorem pySplitComma_no_comma (t : List Char) (h : ',' ∉ t) :
    pySplitComma t = [t] := by
  induction t with
  | nil => rfl
  | cons c rest ih =>
    have hc : c ≠ ',' := fun hh => h (hh ▸ List.mem_cons_self c rest)
    have hr : ',' ∉ rest := fun hh => h (List.mem_cons_of_mem c hh)
    rw [pySplitComma, ih hr]
    simp [hc]

theorem pySplitComma_append (t l : List Char) (h : ',' ∉ t) :
    pySplitComma (t ++ ',' :: l) = t :: pySplitComma l := by
  induction t with
  | nil =>
    rw [List.nil_append, pySplitComma]
    cases hl : pySplitComma l with
    | nil => exact absurd hl (pySplitComma_ne_nil l)
    | cons t0 ts => simp
  | cons c rest ih =>
    have hc : c ≠ ',' := fun hh => h (hh ▸ List.mem_cons_self c rest)
    have hr : ',' ∉ rest := fun hh => h (List.mem_cons_of_mem c hh)
    rw [List.cons_append, pySplitComma, ih hr]
    simp [hc]

theorem pySplitComma_joinComma (ts : List (List Char)) (hne : ts ≠ [])
    (hcf : ∀ t ∈ ts, ',' ∉ t) : pySplitComma (joinComma ts) = ts := by
  induction ts with
  | nil => exact absurd rfl hne
  | cons t rest ih =>
    cases rest with
    | nil =>
      rw [joinComma]
      exact pySplitComma_no_comma t (hcf t (List.mem_cons_self t []))
    | cons t2 rest2 =>
      rw [joinComma, pySplitComma_append t (joinComma (t2 :: rest2))
        (hcf t (List.mem_cons_self t (t2 :: rest2)))]
      · rw [ih (fun h => List.noConfusion h)
          (fun u hu => hcf u (List.mem_cons_of_mem t hu))]
      · exact fun h => List.noConfusion h

theorem dropWhile_eq_self_of (p : Char → Bool) (l : List Char)
    (h : ∀ c ∈ l, p c = false) : l.dropWhile p = l := by
  cases l with
  | nil => rfl
  | cons c rest => simp [List.dropWhile_cons, h c (List.mem_cons_self c rest)]

theorem pyStripChars_eq_self (l : List Char)
    (h : ∀ c ∈ l, c.isWhitespace = false) : pyStripChars l = l := by
  unfold pyStripChars
  rw [dropWhile_eq_self_of _ l h,
    dropWhile_eq_self_of _ l.reverse (fun c hc => h c (List.mem_reverse.mp hc)),
    List.reverse_reverse]

theorem natReprGo_mem (fuel n : ℕ) :
    ∀ c ∈ natReprGo fuel n, c ∈ "0123456789".data := by
  induction fuel generalizing n with
  | zero => intro c hc; cases hc
  | succ k ih =>
    intro c hc
    rw [natReprGo] at hc
    have h10 : ∀ m, m < 10 → "0123456789".data.getD m '0' ∈ "0123456789".data := by decide
    split at hc
    · rename_i hlt
      rw [List.mem_singleton] at hc
      exact hc ▸ h10 n hlt
    · rcases List.mem_append.mp hc with hm | hm
      · exact ih (n / 10) c hm
      · rw [List.mem_singleton] at hm
        exact hm ▸ h10 (n % 10) (Nat.mod_lt n (by omega))

theorem columnLabel_chars (i : ℕ) :
    ∀ c ∈ (columnLabel i).data, c ≠ ',' ∧ c.isWhitespace = false := by
  intro c hc
  have hdata : (columnLabel i).data = "Column_".data ++ natRepr i := by
    unfold columnLabel
    rw [String.data_append]
  rw [hdata] at hc
  have hpre : ∀ c ∈ "Column_".data, c ≠ ',' ∧ c.isWhitespace = false := by decide
  have hdig : ∀ c ∈ "0123456789".data, c ≠ ',' ∧ c.isWhitespace = false := by decide
  rcases List.mem_append.mp hc with hm | hm
  · exact hpre c hm
  · exact hdig c (natReprGo_mem (i + 1) i c hm)

theorem joinComma_cons_ne_nil (t : List Char) (ts : List (List Char))
    (ht : t ≠ []) : joinComma (t :: ts) ≠ [] := by
  cases ts with
  | nil => simpa [joinComma] using ht
  | cons t2 rest =>
    rw [joinComma]
    · simp [ht]
    · exact fun h => List.noConfusion h

/-- C7 (amended).  With `has_header = false` the CSV/spreadsheet loader
labels the columns with the stringified positional integers `0, 1, …`
and flags the table as needing a header fix; the synthetic names
`Column_0, Column_1, …` are the pre-filled default of the header-fix
input that runs right after load, which renames every column to them;
for the JSON format the `has_header` flag is ignored and the table is
always header-bearing. -/
theorem load_headers_contract :
    (∀ grid : List (List String),
      (readGrid grid false).names =
        (List.range (grid.headD []).length).map (fun i => (⟨natRepr i⟩ : String)) ∧
      load_dataset (.csvFile grid) false = some (readGrid grid false, true) ∧
      load_dataset (.xlsxFile grid) false = some (readGrid grid false, true) ∧
      load_dataset (.xlsFile grid) false = some (readGrid grid false, true)) ∧
    (∀ (fields : List String) (recs : List (List Value)) (b : Bool),
      load_dataset (.jsonFile fields recs) b = load_dataset (.jsonFile fields recs) false) ∧
    (∀ df : DataFrame,
      applyHeaderInput df (joinCommaS (defaultHeaders df)) =
        (setNames df (defaultHeaders df), none) ∧
      (setNames df (defaultHeaders df)).names = defaultHeaders df) := by
  refine ⟨fun grid => ⟨?_, rfl, rfl, rfl⟩, fun fields recs b => rfl, fun df => ?_⟩
  · unfold readGrid
    rw [if_neg (by simp)]
    exact mkDf_names _ _
  · have hlen : (defaultHeaders df).length = df.ncols := by
      simp [defaultHeaders]
    refine ⟨?_, setNames_names df _ hlen⟩
    cases hcols : df.cols with
    | nil =>
      obtain ⟨cols⟩ := df
      cases hcols
      decide
    | cons c0 rest =>
      have hn0 : df.ncols ≠ 0 := by
        unfold DataFrame.ncols
        rw [hcols]
        simp
      have hdne : defaultHeaders df ≠ [] := by
        intro hh
        rw [← hlen, hh] at hn0
        exact hn0 rfl
      have hcf : ∀ t ∈ (defaultHeaders df).map String.data, ',' ∉ t := by
        intro t ht
        rw [List.mem_map] at ht
        obtain ⟨s, hs, rfl⟩ := ht
        unfold defaultHeaders at hs
        rw [List.mem_map] at hs
        obtain ⟨i, -, rfl⟩ := hs
        intro hmem
        exact absurd rfl (columnLabel_chars i ',' hmem).1
      have hsplit : pySplitCommaS (joinCommaS (defaultHeaders df)) = defaultHeaders df := by
        unfold pySplitCommaS joinCommaS
        rw [show (String.mk (joinComma ((defaultHeaders df).map String.data))).data
            = joinComma ((defaultHeaders df).map String.data) from rfl]
        rw [pySplitComma_joinComma _ (by simpa using hdne) hcf, List.map_map]
        exact (List.map_congr_left (fun s _ => rfl)).trans (List.map_id _)
      have hstrip : (pySplitCommaS (joinCommaS (defaultHeaders df))).map pyStripS =
          defaultHeaders df := by
        rw [hsplit]
        refine (List.map_congr_left ?_).trans (List.map_id _)
        intro s hs
        unfold defaultHeaders at hs
        rw [List.mem_map] at hs
        obtain ⟨i, -, rfl⟩ := hs
        unfold pyStripS
        rw [pyStripChars_eq_self _ (fun c hc => (columnLabel_chars i c hc).2)]
        rfl
      have hinput : joinCommaS (defaultHeaders df) ≠ "" := by
        have hhead : defaultHeaders df =
            columnLabel 0 :: (List.range rest.length).map (columnLabel ∘ Nat.succ) := by
          unfold defaultHeaders DataFrame.ncols
          rw [hcols, List.length_cons, List.range_succ_eq_map, List.map_cons, List.map_map]
        have hc0 : (columnLabel 0).data ≠ [] := by decide
        have hjoin : joinComma ((defaultHeaders df).map String.data) ≠ [] := by
          rw [hhead, List.map_cons]
          exact joinComma_cons_ne_nil _ _ hc0
        intro heq
        have : (joinCommaS (defaultHeaders df)).data = "".data := by rw [heq]
        exact hjoin this
      unfold applyHeaderInput
      rw [if_neg hinput, hstrip, if_pos (by rw [hlen])]

/-! ## C8: the boolean retype -/

/-- Counterexample for C8.  A cell outside the boolean mapping does not
fail the conversion: `Series.map` turns it into the missing sentinel and
the nullable-boolean cast accepts that, so the column converts with no
`TypeConversionError` reported. -/
theorem boolean_retype_cex :
    retypeColumn ⟨"a", .objectD, [.vstr "yes"]⟩ .toBoolean =
      some ⟨"a", .booleanD, [.vmissing]⟩ ∧
    stageRetype [("a", .toBoolean)] ⟨[⟨"a", .objectD, [.vstr "yes"]⟩]⟩ =
      (⟨[⟨"a", .booleanD, [.vmissing]⟩]⟩, []) := by
  decide

theorem astype_mapBool (cells : List Value) :
    astypeBoolean (mapBoolDict cells) = some (cells.map specBoolCell) := by
  unfold astypeBoolean mapBoolDict
  induction cells with
  | nil => rfl
  | cons v rest ih =>
    have hhead : astypeBooleanCell (match boolDictLookup v with
        | some b => Value.vbool b
        | none => Value.vmissing) = some (specBoolCell v) := by
      cases v with
      | vint n =>
        simp only [boolDictLookup, specBoolCell]
        split_ifs <;> rfl
      | vfloat q =>
        simp only [boolDictLookup, specBoolCell]
        split_ifs <;> rfl
      | vstr s =>
        simp only [boolDictLookup, specBoolCell]
        split_ifs <;> rfl
      | vbool b => rfl
      | vdate t => rfl
      | vmissing => rfl
    rw [List.map_cons, List.map_cons, mapStrict, hhead, ih]
    rfl

theorem retypeColumn_toBoolean (c : Col) :
    retypeColumn c .toBoolean =
      some { c with dtype := .booleanD, cells := c.cells.map specBoolCell } := by
  unfold retypeColumn
  rw [show astypeBoolean (mapBoolDict c.cells) = _ from astype_mapBool c.cells]
  rfl

/-- C8 (amended).  Converting a column to boolean maps the literal
tokens `"True"`/`"False"`, native booleans and the numbers one/zero
(integer or float) to booleans, and maps every other cell value — the
missing sentinel included — to the missing sentinel; the conversion
itself never fails, so no `TypeConversionError` is reported for a
boolean retype and the remaining columns are processed either way. -/
theorem boolean_retype_contract (c : Col) :
    retypeColumn c .toBoolean =
      some { c with dtype := .booleanD, cells := c.cells.map specBoolCell } ∧
    ∀ (df : DataFrame) (nm : String),
      (stageRetype [(nm, RetypeTarget.toBoolean)] df).2 = [] := by
  refine ⟨retypeColumn_toBoolean c, fun df nm => ?_⟩
  unfold stageRetype
  rw [List.foldl_cons, List.foldl_nil]
  cases hfc : findColumn df nm with
  | none => simp [hfc]
  | some c2 => simp [hfc, retypeColumn_toBoolean c2]

/-! ## C9: cleaning never touches the loaded table -/

theorem readRef_writeRef_ne (st : PdState) (r j : ℕ) (t : DataFrame)
    (h : r ≠ j) : readRef (writeRef st r t) j = readRef st j := by
  unfold readRef writeRef
  rw [List.getD_eq_getElem?_getD, List.getD_eq_getElem?_getD, List.getElem?_set_ne h]

theorem readRef_alloc (st : PdState) (t : DataFrame) (j : ℕ)
    (h : j < st.heap.length) : readRef (allocRef st t).1 j = readRef st j := by
  unfold readRef allocRef
  exact List.getD_append _ _ _ _ h

/-- C9.  The Clean & Export tab starts from `df.copy()`: every stage
writes only through the freshly allocated reference, so after the whole
pipeline the originally loaded table reads back unchanged (same columns,
names, dtypes and cell values), and the reference returned for the
cleaned table is a different one. -/
theorem clean_preserves_original (st : PdState) (dfRef : ℕ)
    (ch : CleaningChoices) (h : dfRef < st.heap.length) :
    readRef (runCleanTab st dfRef ch).1 dfRef = readRef st dfRef ∧
    (runCleanTab st dfRef ch).2.1 ≠ dfRef := by
  have hne : (allocRef st (readRef st dfRef)).2 ≠ dfRef := by
    show st.heap.length ≠ dfRef
    omega
  constructor
  · show readRef (writeRef _ _ _) dfRef = _
    rw [readRef_writeRef_ne _ _ _ _ hne, readRef_writeRef_ne _ _ _ _ hne,
      readRef_writeRef_ne _ _ _ _ hne, readRef_writeRef_ne _ _ _ _ hne,
      readRef_writeRef_ne _ _ _ _ hne]
    exact readRef_alloc st _ dfRef h
  · show (allocRef st (readRef st dfRef)).2 ≠ dfRef
    exact hne

/-- A one-table session for the cleaning-pipeline witness. -/
def stEx : PdState := ⟨[⟨[⟨"a", .objectD, [.vstr "x", .vmissing]⟩]⟩]⟩

/-- A full set of cleaning choices touching every stage. -/
def chEx : CleaningChoices :=
  ⟨some ("a", .fillMode), some [], some ["a"], some ["a"], [("a", .toBoolean)]⟩

/-- Witness for C9: with every stage active, the loaded table reads
back unchanged and the cleaned table lives at a different reference. -/
theorem clean_preserves_original_witness :
    readRef (runCleanTab stEx 0 chEx).1 0 = readRef stEx 0 ∧
    (runCleanTab stEx 0 chEx).2.1 ≠ 0 :=
  clean_preserves_original stEx 0 chEx (by decide)

end DataprepWizard
